import Mathlib

/-!
Shallow embedding of the KlingWeb Instagram web-API client
(`src/docs/referencia/instagram_web_api.py`, `followers_manager.py`,
`bot.py`) together with proofs about its transport retry logic, CSRF
refresh, session restore, rate gating, write-operation result parsing,
upload pipelines and paginated list fetchers.

Modelling conventions:
* Parsed JSON dictionaries are association lists `List (String × String)`;
  `dictGet` mirrors Python's `dict.get(k, "")`.
* Network outcomes are explicit environment values (the response the
  platform would return, or a marker that the request raised).
* Mutable client state (`requests.Session` cookie jar, headers,
  `csrf_token`, `is_authenticated`) is threaded explicitly.
* Timestamps are naturals (seconds or milliseconds as noted); durations
  are rationals (`Rat`), since the code only compares and forwards them.
-/

namespace KlingWeb

/-- `data.get(key, "")` on a parsed JSON object, modelled as the first
binding of `key` in an association list, defaulting to `""`. -/
def dictGet (d : List (String × String)) (k : String) : String :=
  match d.find? (fun p => p.fst == k) with
  | some p => p.snd
  | none => ""

/-- `key in data` on a parsed JSON object. -/
def dictHas (d : List (String × String)) (k : String) : Bool :=
  d.any (fun p => p.fst == k)

/-- Parsed JSON body of a response. -/
abbrev Body := List (String × String)

/-- Outcome of a `_web_post` call as seen by a write operation:
either the parsed JSON dict, or the call raised (HTTP error status,
network failure, or a non-JSON body). -/
inductive WebPostResult
  | ok (data : Body)
  | exn
deriving DecidableEq, Repr

/-- `InstagramWebAPI.user_follow` (instagram_web_api.py:552-565):
POSTs `/web/friendships/{id}/follow/`; returns `True` iff the parsed
response has `result == "following"` or `status == "ok"`; any exception
is caught and yields `False`. -/
def user_follow (r : WebPostResult) : Bool :=
  match r with
  | .ok data => dictGet data "result" == "following" || dictGet data "status" == "ok"
  | .exn => false

/-- `InstagramWebAPI.user_unfollow` (instagram_web_api.py:567-578):
succeeds iff `status == "ok"`; exceptions caught, `False`. -/
def user_unfollow (r : WebPostResult) : Bool :=
  match r with
  | .ok data => dictGet data "status" == "ok"
  | .exn => false

/-- `InstagramWebAPI.media_like` (instagram_web_api.py:584-594):
succeeds iff `status == "ok"`; exceptions caught, `False`. -/
def media_like (r : WebPostResult) : Bool :=
  match r with
  | .ok data => dictGet data "status" == "ok"
  | .exn => false

/-- `InstagramWebAPI.media_unlike` (instagram_web_api.py:596-603):
succeeds iff `status == "ok"`; exceptions caught, `False`. -/
def media_unlike (r : WebPostResult) : Bool :=
  match r with
  | .ok data => dictGet data "status" == "ok"
  | .exn => false

/-- `InstagramWebAPI.media_comment` (instagram_web_api.py:609-622):
succeeds iff `status == "ok"`; exceptions caught, `False`. -/
def media_comment (r : WebPostResult) : Bool :=
  match r with
  | .ok data => dictGet data "status" == "ok"
  | .exn => false

/-! ## Transport layer: cookie jar, CSRF refresh, retrying requests -/

/-- One cookie of the `requests` cookie jar, keyed (as in `requests`)
by `(domain, path, name)`.  The jar is a list in set order: a later
element was set more recently. -/
structure Cookie where
  domain : String
  path : String
  name : String
  cvalue : String
deriving DecidableEq, Repr

/-- `session.cookies.clear(domain, path, name)`: removes the cookies
with exactly that key from the jar. -/
def clearCookie (jar : List Cookie) (d p n : String) : List Cookie :=
  jar.filter (fun c => !(c.domain == d && c.path == p && c.name == n))

/-- Two cookies occupy the same jar slot: they agree on the
`(domain, path, name)` key `requests` indexes its jar by. -/
def sameKey (x c : Cookie) : Bool :=
  x.domain == c.domain && x.path == c.path && x.name == c.name

/-- The `csrftoken` cookies of the jar, in set order. -/
def csrfCookies (jar : List Cookie) : List Cookie :=
  jar.filter (fun c => c.name == "csrftoken")

/-- `session.cookies.get(name, "")`: value of the cookie named `name`
(the jar holds at most one per key when this is called). -/
def jarGet (jar : List Cookie) (name : String) : String :=
  match (jar.filter (fun c => c.name == name)).head? with
  | some c => c.cvalue
  | none => ""

/-- Mutable state of `InstagramWebAPI` relevant to the transport layer:
the session cookie jar, the `csrf_token` attribute and the
`X-CSRFToken` request header (absent until first set). -/
structure WebClient where
  jar : List Cookie
  csrf_token : String
  headerCsrf : Option String
deriving DecidableEq, Repr

/-- `InstagramWebAPI._refresh_csrf` (instagram_web_api.py:132-144):
snapshots the `csrftoken` cookies; when more than one exists, clears
every one but the last from the jar; then reads `csrftoken` from the
jar and, when non-empty, stores it in `csrf_token` and the
`X-CSRFToken` header. -/
def refresh_csrf (s : WebClient) : WebClient :=
  let cs := csrfCookies s.jar
  let jar1 :=
    if cs.length > 1 then
      cs.dropLast.foldl (fun j c => clearCookie j c.domain c.path c.name) s.jar
    else s.jar
  let csrf := jarGet jar1 "csrftoken"
  if csrf ≠ "" then
    { jar := jar1, csrf_token := csrf, headerCsrf := some csrf }
  else
    { s with jar := jar1 }

/-- Platform answer to one HTTP attempt: a 2xx success with a parsed
body, an HTTP error status with a body, or a raised non-HTTP exception
(connection error, timeout, non-JSON body). -/
inductive Attempt
  | success (body : Body)
  | httpError (code : Nat) (body : Body)
  | exn
deriving DecidableEq, Repr

/-- Errors surfaced by the transport layer. -/
inductive TransportError
  | httpStatus (code : Nat) (body : Body)
  | other
deriving DecidableEq, Repr

/-- The retry loop shared by `_api_get` and `_api_post`
(instagram_web_api.py:160-176 and 182-198): `for attempt in
range(retries + 1)` — a success returns its body; HTTP 429 with
`attempt < retries` sleeps `30 * (attempt + 1)` seconds and retries;
any other HTTP error, a 429 on the last attempt, or a non-HTTP
exception is raised.  `attempt` is the current 0-based attempt index
and `left = retries - attempt` the number of retries still allowed
(so `attempt < retries` is `left > 0`).  Returns the outcome together
with the list of backoff waits performed, in order.  `resps i` is the
platform's answer to attempt `i`. -/
def attemptLoop (resps : Nat → Attempt) (attempt : Nat) :
    Nat → Except TransportError Body × List Nat
  | 0 =>
    match resps attempt with
    | .success b => (.ok b, [])
    | .httpError code body => (.error (.httpStatus code body), [])
    | .exn => (.error .other, [])
  | left + 1 =>
    match resps attempt with
    | .success b => (.ok b, [])
    | .httpError code body =>
        if code == 429 then
          let r := attemptLoop resps (attempt + 1) left
          (r.fst, 30 * (attempt + 1) :: r.snd)
        else
          (.error (.httpStatus code body), [])
    | .exn => (.error .other, [])

/-- `InstagramWebAPI._api_get` (instagram_web_api.py:156-176): refreshes
CSRF from the cookie jar, then runs the retry loop from attempt 0 with
`retries` retries allowed (default bound `retries = 2`).  Also returns
the client state the request was issued with. -/
def api_get (s : WebClient) (resps : Nat → Attempt) (retries : Nat) :
    (Except TransportError Body × List Nat) × WebClient :=
  let s1 := refresh_csrf s
  (attemptLoop resps 0 retries, s1)

/-- `InstagramWebAPI._api_post` (instagram_web_api.py:178-198): same
contract as `_api_get` with a POST body. -/
def api_post (s : WebClient) (resps : Nat → Attempt) (retries : Nat) :
    (Except TransportError Body × List Nat) × WebClient :=
  let s1 := refresh_csrf s
  (attemptLoop resps 0 retries, s1)

/-- `InstagramWebAPI._web_post` (instagram_web_api.py:200-213):
refreshes CSRF, issues exactly one POST; any HTTP error status
(429 included) or other exception is re-raised immediately — there is
no retry loop. -/
def web_post (s : WebClient) (resp : Attempt) :
    Except TransportError Body × WebClient :=
  let s1 := refresh_csrf s
  (match resp with
   | .success b => .ok b
   | .httpError code body => .error (.httpStatus code body)
   | .exn => .error .other, s1)

/-! ## Session restore -/

/-- Client state relevant to authentication
(`user_id`, `username`, `csrf_token`, `is_authenticated`
attributes plus the cookie jar). -/
structure AuthState where
  jar : List Cookie
  user_id : Option String
  username : Option String
  csrf_token : String
  headerCsrf : Option String
  is_authenticated : Bool
deriving DecidableEq, Repr

/-- Response to the `_verify_session` probe: HTTP status plus the
parsed JSON body (`none` when `r.json()` would raise), or a raised
request exception. -/
inductive ProbeResp
  | resp (code : Nat) (body : Option Body)
  | exn
deriving DecidableEq, Repr

/-- `InstagramWebAPI._verify_session` (instagram_web_api.py:409-421):
GETs `accounts/edit/web_form_data/`; `True` iff the status is 200 and
the body parses with `status == "ok"` or a `form_data` key; every
exception yields `False`. -/
def verify_session (p : ProbeResp) : Bool :=
  match p with
  | .resp 200 (some b) => dictGet b "status" == "ok" || dictHas b "form_data"
  | .resp 200 none => false
  | .resp _ _ => false
  | .exn => false

/-- Contents of a session snapshot file as parsed by `load_session`:
cookie name/value pairs, identity and saved CSRF token. -/
structure SavedSession where
  cookies : List (String × String)
  user_id : Option String
  username : Option String
  csrf_token : String
deriving DecidableEq, Repr

/-- Environment of one `load_session` call: whether the file exists,
the parse outcome (`none` when reading/JSON-decoding raised) and the
verification probe's response. -/
structure LoadEnv where
  fileExists : Bool
  parsed : Option SavedSession
  probe : ProbeResp
deriving DecidableEq, Repr

/-- `session.cookies.set(name, value)` during restore: appends a cookie
with default domain/path. -/
def setCookie (jar : List Cookie) (nv : String × String) : List Cookie :=
  jar ++ [⟨"", "/", nv.fst, nv.snd⟩]

/-- `InstagramWebAPI._set_ajax_headers` (instagram_web_api.py:146-154)
restricted to the state we model: it calls `_refresh_csrf` (the other
headers it sets are constants). -/
def set_ajax_headers (s : AuthState) : AuthState :=
  let w := refresh_csrf ⟨s.jar, s.csrf_token, s.headerCsrf⟩
  { s with jar := w.jar, csrf_token := w.csrf_token, headerCsrf := w.headerCsrf }

/-- `InstagramWebAPI.load_session` (instagram_web_api.py:375-407):
returns `False` when the file is missing or unreadable; otherwise
clears the jar, restores cookies/identity/CSRF from the snapshot, sets
AJAX headers and probes with `_verify_session`; only a successful probe
sets `is_authenticated = True` and returns `True`. -/
def load_session (s : AuthState) (env : LoadEnv) : Bool × AuthState :=
  if !env.fileExists then (false, s)
  else
    match env.parsed with
    | none => (false, s)
    | some d =>
        let s1 : AuthState :=
          { s with
            jar := d.cookies.foldl setCookie []
            user_id := d.user_id
            username := d.username
            csrf_token := d.csrf_token }
        let s2 := set_ajax_headers s1
        if verify_session env.probe then
          (true, { s2 with is_authenticated := true })
        else
          (false, s2)

/-! ## Rate Governor and the mutating-action callers -/

/-- Modelled from the spec: the `RateLimiter` of `utils.py` is not
under `src/` (only its callers are).  Per spec §2 and §3 it "tracks
per-action-kind counts in rolling hourly windows"; `can_perform(kind,
ceiling)` decides before the network call whether the count of actions
of that kind recorded inside the last hour is below the ceiling, and
`record_action(kind)` records one action at the current time.  Modelled
as a list of (kind, timestamp-in-seconds) records. -/
structure RateLimiter where
  actions : List (String × Nat)
deriving DecidableEq, Repr

/-- Number of recorded actions of `kind` inside the rolling hour that
ends at `now`. -/
def countInWindow (rl : RateLimiter) (kind : String) (now : Nat) : Nat :=
  (rl.actions.filter
    (fun a => a.fst == kind && a.snd ≤ now && now < a.snd + 3600)).length

/-- Modelled from the spec: `RateLimiter.can_perform(kind, ceiling)` —
true iff the hourly count of `kind` is still below `ceiling`. -/
def can_perform (rl : RateLimiter) (kind : String) (ceiling now : Nat) : Bool :=
  countInWindow rl kind now < ceiling

/-- Modelled from the spec: `RateLimiter.record_action(kind)` — record
one action of `kind` at time `now`. -/
def record_action (rl : RateLimiter) (kind : String) (now : Nat) : RateLimiter :=
  ⟨(kind, now) :: rl.actions⟩

/-- Network calls a mutating-action caller can issue. -/
inductive ActionEvent
  | fetchUserInfo
  | followCall
  | resolveUrlCall
  | likeCall
deriving DecidableEq, Repr

/-- Environment of one `FollowersManager.follow_user` call. -/
structure FollowEnv where
  now : Nat
  alreadyFollowed : Bool
  userInfo : Option Nat
  followResp : WebPostResult
deriving DecidableEq, Repr

/-- `FollowersManager.follow_user` (followers_manager.py:157-199):
declines without any network call when `can_perform('follows', ceiling)`
fails or the user is already followed; otherwise fetches the profile
(`get_user_info`, a network read), then issues `user_follow`; only when
the follow call reports success is `record_action('follows')` executed
and `True` returned.  Result: (returned bool, rate limiter after,
network calls issued in order). -/
def follow_user (rl : RateLimiter) (ceiling : Nat) (env : FollowEnv) :
    Bool × RateLimiter × List ActionEvent :=
  if !can_perform rl "follows" ceiling env.now then (false, rl, [])
  else if env.alreadyFollowed then (false, rl, [])
  else
    match env.userInfo with
    | none => (false, rl, [.fetchUserInfo])
    | some _ =>
        if !user_follow env.followResp then
          (false, rl, [.fetchUserInfo, .followCall])
        else
          (true, record_action rl "follows" env.now,
           [.fetchUserInfo, .followCall])

/-- Environment of one `InstagramBot.like_post` call. -/
structure LikeEnv where
  now : Nat
  urlShortcode : Option String
  resolveResp : Option String
  likeResp : WebPostResult
deriving DecidableEq, Repr

/-- `InstagramWebAPI.media_pk_from_url` and `_shortcode_to_media_id`
(instagram_web_api.py:1380-1415): a URL whose shortcode pattern does
not match resolves to `None` with no network call; otherwise one
GraphQL lookup returns the media id or `None`. -/
def media_pk_from_url (env : LikeEnv) : Option String × List ActionEvent :=
  match env.urlShortcode with
  | none => (none, [])
  | some _ => (env.resolveResp, [.resolveUrlCall])

/-- `InstagramBot.like_post` (bot.py:121-140): declines without any
network call when `can_perform('likes', ceiling)` fails; resolves the
URL; when a media id is found it calls `media_like`, ignores its
returned bool, records `record_action('likes')` and returns `True`. -/
def like_post (rl : RateLimiter) (ceiling : Nat) (env : LikeEnv) :
    Bool × RateLimiter × List ActionEvent :=
  if !can_perform rl "likes" ceiling env.now then (false, rl, [])
  else
    match media_pk_from_url env with
    | (none, evs) => (false, rl, evs)
    | (some _, evs) =>
        (true, record_action rl "likes" env.now, evs ++ [.likeCall])

/-! ## Upload pipeline -/

/-- `upload_id = str(int(time.time() * 1000))`: the upload id every
upload entry point derives from the wall clock in milliseconds
(instagram_web_api.py:1020, 1071, 1151, 1212, 1303). -/
def deriveUploadId (timeMs : Nat) : String :=
  toString timeMs

/-- Video metadata probed by `_get_video_info`
(instagram_web_api.py:834-868). -/
structure VideoInfo where
  duration : Rat
  durationMs : Int
  width : Nat
  height : Nat
deriving DecidableEq, Repr

/-- The defaults `_get_video_info` returns when `ffprobe` is missing or
fails (instagram_web_api.py:863-868). -/
def defaultVideoInfo : VideoInfo :=
  { duration := 15, durationMs := 15000, width := 1080, height := 1920 }

/-- `InstagramWebAPI._get_video_info`: the probed metadata when
`ffprobe` succeeded, else the fixed defaults; it never raises. -/
def get_video_info (probe : Option VideoInfo) : VideoInfo :=
  probe.getD defaultVideoInfo

/-- Network calls of an upload pipeline, each tagged with the
`upload_id` it carries. -/
inductive UploadEvent
  | videoBinary (uploadId : String)
  | photoBinary (uploadId : String)
  | configureFeedPhoto (uploadId : String)
  | configureFeedVideo (uploadId : String)
  | configureStory (uploadId : String)
  | configureClips (uploadId : String)
deriving DecidableEq, Repr

/-- Environment of one photo upload (`photo_upload` /
`photo_upload_to_story`): whether the file exists, the current time in
milliseconds, whether the binary upload returned HTTP 200, and the
configure response (HTTP status and parsed body). -/
structure PhotoUploadEnv where
  fileExists : Bool
  timeMs : Nat
  binaryOk : Bool
  configureCode : Nat
  configureBody : Body
deriving DecidableEq, Repr

/-- Environment of one video upload (`video_upload`,
`video_upload_to_story`, `clip_upload`): additionally the `ffprobe`
outcome and the thumbnail available for upload (a provided
`thumbnail_path` or the frame `_extract_thumbnail` produced; `none`
when neither exists). -/
structure VideoUploadEnv where
  fileExists : Bool
  timeMs : Nat
  probe : Option VideoInfo
  binaryOk : Bool
  thumb : Option String
  configureCode : Nat
  configureBody : Body
deriving DecidableEq, Repr

/-- Shared configure-result interpretation (instagram_web_api.py:
1042-1054, 1123-1135, 1185-1195, 1276-1286, 1359-1371): the parsed body
is returned when the HTTP status is 200 and the body's `status` is
`"ok"`; otherwise the entry point returns `None`. -/
def configureResult (code : Nat) (body : Body) : Option Body :=
  if code = 200 && dictGet body "status" == "ok" then some body else none

/-- `InstagramWebAPI.photo_upload` (instagram_web_api.py:1013-1057):
missing file → `None`, no network; otherwise derive the upload id,
upload the photo binary (abort on failure), then configure to feed.
Result: (returned value, network calls in order). -/
def photo_upload (env : PhotoUploadEnv) : Option Body × List UploadEvent :=
  if !env.fileExists then (none, [])
  else
    let uid := deriveUploadId env.timeMs
    if !env.binaryOk then (none, [.photoBinary uid])
    else
      (configureResult env.configureCode env.configureBody,
       [.photoBinary uid, .configureFeedPhoto uid])

/-- `InstagramWebAPI.photo_upload_to_story` (instagram_web_api.py:
1144-1198): same pipeline with the story configure endpoint. -/
def photo_upload_to_story (env : PhotoUploadEnv) : Option Body × List UploadEvent :=
  if !env.fileExists then (none, [])
  else
    let uid := deriveUploadId env.timeMs
    if !env.binaryOk then (none, [.photoBinary uid])
    else
      (configureResult env.configureCode env.configureBody,
       [.photoBinary uid, .configureStory uid])

/-- `InstagramWebAPI.video_upload` (instagram_web_api.py:1063-1138):
missing file → `None`, no network; otherwise derive the upload id,
probe the video, upload the video binary (abort on failure), upload the
thumbnail when one is available (its result is ignored), then configure
to feed with `?video=1`. -/
def video_upload (env : VideoUploadEnv) : Option Body × List UploadEvent :=
  if !env.fileExists then (none, [])
  else
    let uid := deriveUploadId env.timeMs
    let _info := get_video_info env.probe
    if !env.binaryOk then (none, [.videoBinary uid])
    else
      let thumbEvs := match env.thumb with
        | some _ => [UploadEvent.photoBinary uid]
        | none => []
      (configureResult env.configureCode env.configureBody,
       .videoBinary uid :: thumbEvs ++ [.configureFeedVideo uid])

/-- `InstagramWebAPI.video_upload_to_story` (instagram_web_api.py:
1204-1289): identical pipeline with `is_story=True` and the story
configure endpoint; a probed duration above 60 seconds only logs a
warning (line 1215-1216) and does not alter control flow. -/
def video_upload_to_story (env : VideoUploadEnv) : Option Body × List UploadEvent :=
  if !env.fileExists then (none, [])
  else
    let uid := deriveUploadId env.timeMs
    let _info := get_video_info env.probe
    if !env.binaryOk then (none, [.videoBinary uid])
    else
      let thumbEvs := match env.thumb with
        | some _ => [UploadEvent.photoBinary uid]
        | none => []
      (configureResult env.configureCode env.configureBody,
       .videoBinary uid :: thumbEvs ++ [.configureStory uid])

/-- `InstagramWebAPI.clip_upload` (instagram_web_api.py:1295-1374):
identical pipeline with `is_clips=True` and the clips configure
endpoint; a probed duration above 90 seconds only logs a warning
(line 1306-1307). -/
def clip_upload (env : VideoUploadEnv) : Option Body × List UploadEvent :=
  if !env.fileExists then (none, [])
  else
    let uid := deriveUploadId env.timeMs
    let _info := get_video_info env.probe
    if !env.binaryOk then (none, [.videoBinary uid])
    else
      let thumbEvs := match env.thumb with
        | some _ => [UploadEvent.photoBinary uid]
        | none => []
      (configureResult env.configureCode env.configureBody,
       .videoBinary uid :: thumbEvs ++ [.configureClips uid])

/-- The upload id an upload event carries. -/
def UploadEvent.uploadId : UploadEvent → String
  | .videoBinary u => u
  | .photoBinary u => u
  | .configureFeedPhoto u => u
  | .configureFeedVideo u => u
  | .configureStory u => u
  | .configureClips u => u

/-! ## Paginated follower / following fetchers -/

/-- One page answer of the friendships endpoint: the `users` array and
the optional `next_max_id` continuation cursor, or a raised
exception. -/
inductive PageResult
  | ok (users : List String) (next : Option String)
  | err
deriving DecidableEq, Repr

/-- The paging loop shared by `user_followers` and `user_following`
(instagram_web_api.py:477-504 and 518-541): while fewer than `amount`
users are accumulated, fetch the next page; append its users; stop when
the response has no `next_max_id`.  A raised exception (modelled by an
`err` page, or by the page stream running out) is caught outside the
loop, so the users accumulated so far are kept. -/
def pagingLoop (amount : Nat) : List PageResult → List String → List String
  | [], acc => acc
  | p :: rest, acc =>
      if amount ≤ acc.length then acc
      else
        match p with
        | .err => acc
        | .ok users next =>
            let acc2 := acc ++ users
            match next with
            | none => acc2
            | some _ => pagingLoop amount rest acc2

/-- `InstagramWebAPI.user_followers` (instagram_web_api.py:470-509):
runs the paging loop from an empty accumulator and returns
`followers[:amount]`. -/
def user_followers (amount : Nat) (pages : List PageResult) : List String :=
  (pagingLoop amount pages []).take amount

/-- `InstagramWebAPI.user_following` (instagram_web_api.py:511-546):
same loop and truncation over the following endpoint. -/
def user_following (amount : Nat) (pages : List PageResult) : List String :=
  (pagingLoop amount pages []).take amount

/-! ## Theorems -/

/-- C5: for every write operation (follow, unfollow, like, unlike,
comment), success is reported `True` exactly when the response parsed
and its status/result field equals the known success token (`"ok"`, or
also `"following"` for follow); every other response shape — any HTTP
200 with a different body included — yields `False`, and (the
operations being total functions of the response) never an exception. -/
theorem write_ops_strict_success (r : WebPostResult) :
    (user_follow r = true ↔
      ∃ d, r = .ok d ∧ (dictGet d "result" = "following" ∨ dictGet d "status" = "ok"))
    ∧ (user_unfollow r = true ↔ ∃ d, r = .ok d ∧ dictGet d "status" = "ok")
    ∧ (media_like r = true ↔ ∃ d, r = .ok d ∧ dictGet d "status" = "ok")
    ∧ (media_unlike r = true ↔ ∃ d, r = .ok d ∧ dictGet d "status" = "ok")
    ∧ (media_comment r = true ↔ ∃ d, r = .ok d ∧ dictGet d "status" = "ok") := by
  cases r <;>
    simp [user_follow, user_unfollow, media_like, media_unlike, media_comment]

/-- C9: every upload entry point called on a file path that does not
exist returns `None` without issuing any network call (and, the models
being total, without raising). -/
theorem missing_file_uploads_return_none (p : PhotoUploadEnv) (v : VideoUploadEnv) :
    photo_upload { p with fileExists := false } = (none, [])
    ∧ photo_upload_to_story { p with fileExists := false } = (none, [])
    ∧ video_upload { v with fileExists := false } = (none, [])
    ∧ video_upload_to_story { v with fileExists := false } = (none, [])
    ∧ clip_upload { v with fileExists := false } = (none, []) := by
  simp [photo_upload, photo_upload_to_story, video_upload, video_upload_to_story,
    clip_upload]

/-- C4 fails on the code: the upload id is `str(int(time.time() * 1000))`,
a function of the wall-clock millisecond alone, so two publishes issued
within the same millisecond (here a photo publish and a clip publish
both entered at millisecond 1728123456789) derive the **same** upload
id — the derivation is neither monotonic nor unique. -/
theorem upload_id_same_millisecond_collision :
    ((photo_upload ⟨true, 1728123456789, true, 200, [("status", "ok")]⟩).snd.map
        UploadEvent.uploadId).head? = some (deriveUploadId 1728123456789)
    ∧ ((clip_upload ⟨true, 1728123456789, some ⟨10, 10000, 1080, 1920⟩, true,
          some "t.jpg", 200, [("status", "ok")]⟩).snd.map
        UploadEvent.uploadId).head? = some (deriveUploadId 1728123456789) :=
  ⟨rfl, rfl⟩

/-- C3: restoring a session snapshot whose verification probe does not
succeed returns `False` and leaves `is_authenticated` at `False`; the
flag can become `True` (and the call return `True`) only when the
probe succeeds — a restore never yields a false Authenticated state. -/
theorem restore_session_no_false_authenticated (s : AuthState) (env : LoadEnv)
    (hs : s.is_authenticated = false) :
    (verify_session env.probe = false →
      (load_session s env).fst = false
      ∧ (load_session s env).snd.is_authenticated = false)
    ∧ ((load_session s env).snd.is_authenticated = true →
        verify_session env.probe = true)
    ∧ ((load_session s env).fst = true → verify_session env.probe = true) := by
  cases hf : env.fileExists with
  | false => simp [load_session, hf, hs]
  | true =>
    cases hp : env.parsed with
    | none => simp [load_session, hf, hp, hs]
    | some d =>
      cases hv : verify_session env.probe with
      | false => simp [load_session, hf, hp, hv, set_ajax_headers, hs]
      | true => simp [load_session, hf, hp, hv]

/-- Witness for C3: a concrete unauthenticated client restoring a
snapshot whose probe answers HTTP 403 gets `False` and stays
unauthenticated. -/
theorem restore_session_no_false_authenticated_witness :
    (load_session ⟨[], none, none, "", none, false⟩
        ⟨true, some ⟨[("csrftoken", "x")], some "1", some "u", "x"⟩,
          .resp 403 (some [])⟩).fst = false
    ∧ (load_session ⟨[], none, none, "", none, false⟩
        ⟨true, some ⟨[("csrftoken", "x")], some "1", some "u", "x"⟩,
          .resp 403 (some [])⟩).snd.is_authenticated = false :=
  (restore_session_no_false_authenticated _ _ rfl).1 rfl

/-- C7: a feed video upload on a valid file (file present, probe data
available, binary upload accepted, thumbnail available) issues exactly
one binary video-upload call, then exactly one thumbnail upload call,
then exactly one configure call, in that order, all three carrying the
upload id derived at entry. -/
theorem feed_video_upload_three_calls_in_order (env : VideoUploadEnv)
    (info : VideoInfo) (p : String) (hf : env.fileExists = true)
    (_hp : env.probe = some info) (hb : env.binaryOk = true)
    (ht : env.thumb = some p) :
    (video_upload env).snd =
      [.videoBinary (deriveUploadId env.timeMs),
       .photoBinary (deriveUploadId env.timeMs),
       .configureFeedVideo (deriveUploadId env.timeMs)] := by
  simp [video_upload, hf, hb, ht]

/-- Witness for C7: a concrete 10-second 1080×1920 upload produces the
three calls in order with the shared id. -/
theorem feed_video_upload_three_calls_in_order_witness :
    (video_upload ⟨true, 1728123456789, some ⟨10, 10000, 1080, 1920⟩, true,
        some "t.jpg", 200, [("status", "ok")]⟩).snd =
      [.videoBinary (deriveUploadId 1728123456789),
       .photoBinary (deriveUploadId 1728123456789),
       .configureFeedVideo (deriveUploadId 1728123456789)] :=
  feed_video_upload_three_calls_in_order _ ⟨10, 10000, 1080, 1920⟩ "t.jpg"
    rfl rfl rfl rfl

/-- C8: a story video upload whose probed duration exceeds 60 seconds
still runs the full pipeline — binary upload, thumbnail upload, story
configure, all with the derived upload id — and its outcome is exactly
the configure response's interpretation: the overlong duration never
causes a local rejection. -/
theorem story_video_over_60s_still_publishes (env : VideoUploadEnv) (p : String)
    (hf : env.fileExists = true) (hb : env.binaryOk = true)
    (ht : env.thumb = some p)
    (_hd : 60 < (get_video_info env.probe).duration) :
    (video_upload_to_story env).snd =
      [.videoBinary (deriveUploadId env.timeMs),
       .photoBinary (deriveUploadId env.timeMs),
       .configureStory (deriveUploadId env.timeMs)]
    ∧ (video_upload_to_story env).fst =
        configureResult env.configureCode env.configureBody := by
  simp [video_upload_to_story, hf, hb, ht]

/-- Witness for C8: a concrete 75-second story video completes the
pipeline and publishes. -/
theorem story_video_over_60s_still_publishes_witness :
    (video_upload_to_story ⟨true, 99, some ⟨75, 75000, 1080, 1920⟩, true,
        some "t.jpg", 200, [("status", "ok")]⟩).snd =
      [.videoBinary (deriveUploadId 99), .photoBinary (deriveUploadId 99),
       .configureStory (deriveUploadId 99)]
    ∧ (video_upload_to_story ⟨true, 99, some ⟨75, 75000, 1080, 1920⟩, true,
        some "t.jpg", 200, [("status", "ok")]⟩).fst =
        configureResult 200 [("status", "ok")] :=
  story_video_over_60s_still_publishes _ "t.jpg" rfl rfl rfl
    (by simp [get_video_info]; norm_num)

/-- A raised exception while fetching a page ends the paging loop: the
pages after the first `err` are never consulted, and the users
accumulated before it are returned unchanged. -/
theorem pagingLoop_append_err (amount : Nat) (ps rest : List PageResult)
    (acc : List String) :
    pagingLoop amount (ps ++ .err :: rest) acc = pagingLoop amount ps acc := by
  induction ps generalizing acc with
  | nil =>
      simp only [List.nil_append, pagingLoop]
      split <;> rfl
  | cons p ps ih =>
      simp only [List.cons_append, pagingLoop]
      split
      · rfl
      · cases p with
        | err => rfl
        | ok users next =>
            cases next with
            | none => rfl
            | some c => exact ih _

/-- C10: a paginated followers or following fetch with target
cardinality `amount` returns at most `amount` users, and an error while
fetching a page yields exactly the partial list accumulated from the
pages before it (never an exception — the loop's result for a stream
cut at the first error equals the result for the error-free prefix). -/
theorem paginated_fetch_bounded_and_partial (amount : Nat)
    (pages ps rest : List PageResult) :
    (user_followers amount pages).length ≤ amount
    ∧ (user_following amount pages).length ≤ amount
    ∧ user_followers amount (ps ++ .err :: rest) = user_followers amount ps
    ∧ user_following amount (ps ++ .err :: rest) = user_following amount ps := by
  refine ⟨?_, ?_, ?_, ?_⟩ <;>
    simp [user_followers, user_following, pagingLoop_append_err,
      List.length_take]

/-- Recording an action of `kind` at `now` raises the hourly count at
`now` by exactly one. -/
theorem countInWindow_record (rl : RateLimiter) (kind : String) (now : Nat) :
    countInWindow (record_action rl kind now) kind now
      = countInWindow rl kind now + 1 := by
  simp [countInWindow, record_action, List.filter_cons]

/-- C2 fails on the code: `InstagramBot.like_post` (bot.py:121-140)
ignores `media_like`'s returned bool.  With an empty governor, ceiling
30 and a platform response whose status is not `"ok"` (a logically
failed like), `like_post` still records the action (the counter rises
to one) and returns `True` — the counter is **not** incremented "only
after the network call succeeds". -/
theorem like_post_records_despite_failed_like :
    like_post ⟨[]⟩ 30 ⟨1000, some "abc", some "123", .ok [("status", "fail")]⟩
      = (true, ⟨[("likes", 1000)]⟩, [.resolveUrlCall, .likeCall])
    ∧ media_like (WebPostResult.ok [("status", "fail")]) = false := by
  decide

/-- C2 as amended: for both `follow_user` and `like_post` the Rate
Governor is consulted before any network call and a reached hourly
ceiling yields `False` with no network call and an unchanged counter;
`follow_user` increments the counter only when the follow call reports
success, while `like_post` increments it whenever the like call is
issued, regardless of the reported outcome; in both cases the recorded
hourly count never exceeds the ceiling. -/
theorem rate_governor_gating_amended (rl : RateLimiter) (ceiling : Nat)
    (fenv : FollowEnv) (lenv : LikeEnv) :
    (can_perform rl "follows" ceiling fenv.now = false →
        follow_user rl ceiling fenv = (false, rl, []))
    ∧ (can_perform rl "likes" ceiling lenv.now = false →
        like_post rl ceiling lenv = (false, rl, []))
    ∧ (user_follow fenv.followResp = false →
        (follow_user rl ceiling fenv).snd.fst = rl)
    ∧ ((follow_user rl ceiling fenv).fst = true →
        user_follow fenv.followResp = true
        ∧ (follow_user rl ceiling fenv).snd.fst
            = record_action rl "follows" fenv.now)
    ∧ ((like_post rl ceiling lenv).fst = true →
        (like_post rl ceiling lenv).snd.fst = record_action rl "likes" lenv.now)
    ∧ (countInWindow rl "follows" fenv.now ≤ ceiling →
        countInWindow (follow_user rl ceiling fenv).snd.fst "follows" fenv.now
          ≤ ceiling)
    ∧ (countInWindow rl "likes" lenv.now ≤ ceiling →
        countInWindow (like_post rl ceiling lenv).snd.fst "likes" lenv.now
          ≤ ceiling) := by
  obtain ⟨fnow, faf, fui, ffr⟩ := fenv
  obtain ⟨lnow, lsc, lrr, llr⟩ := lenv
  refine ⟨?_, ?_, ?_, ?_, ?_, ?_, ?_⟩
  · intro h; simp [follow_user, h]
  · intro h; simp [like_post, h]
  · intro hw
    cases hcp : can_perform rl "follows" ceiling fnow <;>
      cases faf <;> cases fui <;> simp [follow_user, hcp, hw]
  · cases hcp : can_perform rl "follows" ceiling fnow <;>
      cases faf <;> cases fui <;> cases hw : user_follow ffr <;>
        simp [follow_user, hcp, hw]
  · cases hcp : can_perform rl "likes" ceiling lnow <;>
      cases lsc <;> cases lrr <;> simp [like_post, media_pk_from_url, hcp]
  · intro hle
    cases hcp : can_perform rl "follows" ceiling fnow with
    | false => simpa [follow_user, hcp] using hle
    | true =>
        have hlt : countInWindow rl "follows" fnow < ceiling := by
          simpa [can_perform] using hcp
        cases faf <;> cases fui <;> cases hw : user_follow ffr <;>
          simp [follow_user, hcp, hw, countInWindow_record] <;> omega
  · intro hle
    cases hcp : can_perform rl "likes" ceiling lnow with
    | false => simpa [like_post, hcp] using hle
    | true =>
        have hlt : countInWindow rl "likes" lnow < ceiling := by
          simpa [can_perform] using hcp
        cases lsc <;> cases lrr <;>
          simp [like_post, media_pk_from_url, hcp, countInWindow_record] <;> omega

/-- Witness for C2 (amended): a governor holding twenty follows inside
the last hour with ceiling 20 declines a new follow with no network
call and an unchanged counter. -/
theorem rate_governor_gating_amended_witness :
    follow_user ⟨(List.range 20).map (fun i => ("follows", 900 + i))⟩ 20
        ⟨1000, false, some 5, .ok [("status", "ok")]⟩
      = (false, ⟨(List.range 20).map (fun i => ("follows", 900 + i))⟩, []) :=
  (rate_governor_gating_amended _ 20 _
      ⟨1000, some "abc", some "123", .ok [("status", "ok")]⟩).1 (by decide)

/-- Exhaustion: when every attempt from `attempt` through
`attempt + left` answers HTTP 429, the retry loop performs all
`left` retries, waits `30 * i` seconds before the `i`-th retry, and
surfaces the rate-limit error with the body of the last response. -/
theorem attemptLoop_all_429 (resps : Nat → Attempt) (bodies : Nat → Body) :
    ∀ left attempt,
      (∀ i, attempt ≤ i → i ≤ attempt + left → resps i = .httpError 429 (bodies i)) →
      attemptLoop resps attempt left =
        (.error (.httpStatus 429 (bodies (attempt + left))),
         (List.range' (attempt + 1) left).map (fun i => 30 * i)) := by
  intro left
  induction left with
  | zero =>
      intro attempt h
      have h0 := h attempt le_rfl (by omega)
      simp [attemptLoop, h0]
  | succ left ih =>
      intro attempt h
      have h0 := h attempt le_rfl (by omega)
      have hrec := ih (attempt + 1) (fun i hi1 hi2 => h i (by omega) (by omega))
      rw [show attempt + (left + 1) = attempt + 1 + left by omega]
      simp [attemptLoop, h0, hrec, List.range'_succ]

/-- Success within the bound: when the first `k` attempts answer HTTP
429 and attempt `k` (with `k` retries still allowed) succeeds, the
retry loop returns the success body after waits `30, 60, …, 30 * k`. -/
theorem attemptLoop_success_after (resps : Nat → Attempt) (b : Body) :
    ∀ k attempt left, k ≤ left →
      (∀ i, attempt ≤ i → i < attempt + k → ∃ bi, resps i = .httpError 429 bi) →
      resps (attempt + k) = .success b →
      attemptLoop resps attempt left =
        (.ok b, (List.range' (attempt + 1) k).map (fun i => 30 * i)) := by
  intro k
  induction k with
  | zero =>
      intro attempt left _ _ hs
      rw [Nat.add_zero] at hs
      cases left <;> simp [attemptLoop, hs]
  | succ k ih =>
      intro attempt left hk h429 hs
      obtain ⟨b0, h0⟩ := h429 attempt le_rfl (by omega)
      cases left with
      | zero => omega
      | succ left =>
          have hrec := ih (attempt + 1) left (by omega)
            (fun i hi1 hi2 => h429 i (by omega) (by omega))
            (by rw [show attempt + 1 + k = attempt + (k + 1) by omega]; exact hs)
          simp [attemptLoop, h0, hrec, List.range'_succ]

/-- C1 fails on the code as stated: the two calling conventions do not
share the retry contract.  In the very scenario the spec promises to
recover from — one HTTP 429 followed by a success within the bound
(`retries = 2`, the code's default) — the versioned-API convention
(`_api_get`) retries after a 30-second wait and returns the success,
while the legacy web-form convention (`_web_post`) surfaces the
rate-limit failure immediately, after a single call and zero
retries. -/
theorem web_form_429_not_retried :
    (web_post ⟨[], "", none⟩ (.httpError 429 [("message", "wait")])).fst
      = .error (.httpStatus 429 [("message", "wait")])
    ∧ (api_get ⟨[], "", none⟩
        (fun n => if n = 0 then .httpError 429 [("message", "wait")]
                  else .success [("status", "ok")]) 2).fst
      = (.ok [("status", "ok")], [30]) :=
  ⟨rfl, rfl⟩

/-- C1 as amended: for the versioned-API convention (`_api_get` and
`_api_post`), a 429 is retried up to the configured bound `retries`
with backoff `30 * attempt_number`; only after exhausting the retries
is the rate-limit failure surfaced, carrying the last response body;
a success within the bound is returned.  The legacy web-form convention
(`_web_post`) surfaces every HTTP error status, 429 included,
immediately and without retry. -/
theorem transport_429_retry_amended (s : WebClient) (resps : Nat → Attempt)
    (retries : Nat) (bodies : Nat → Body) (k : Nat) (b body : Body) (code : Nat) :
    ((∀ i, i ≤ retries → resps i = .httpError 429 (bodies i)) →
        (api_get s resps retries).fst =
          (.error (.httpStatus 429 (bodies retries)),
           (List.range' 1 retries).map (fun i => 30 * i))
        ∧ (api_post s resps retries).fst =
          (.error (.httpStatus 429 (bodies retries)),
           (List.range' 1 retries).map (fun i => 30 * i)))
    ∧ (k ≤ retries →
        (∀ i, i < k → ∃ bi, resps i = .httpError 429 bi) →
        resps k = .success b →
        (api_get s resps retries).fst =
          (.ok b, (List.range' 1 k).map (fun i => 30 * i))
        ∧ (api_post s resps retries).fst =
          (.ok b, (List.range' 1 k).map (fun i => 30 * i)))
    ∧ (web_post s (.httpError code body)).fst
        = .error (.httpStatus code body) := by
  refine ⟨fun h => ?_, fun hk h429 hs => ?_, rfl⟩
  · have := attemptLoop_all_429 resps bodies retries 0
      (fun i hi1 hi2 => h i (by omega))
    constructor <;> simpa [api_get, api_post] using this
  · have := attemptLoop_success_after resps b k 0 retries hk
      (fun i _ hi2 => h429 i (by omega)) (by simpa using hs)
    constructor <;> simpa [api_get, api_post] using this

/-- Witness for C1 (amended): with the default bound `retries = 2` and
a platform answering 429 on every attempt, `_api_get` surfaces the
rate-limit failure with the last body after backoff waits of 30 and 60
seconds. -/
theorem transport_429_retry_amended_witness :
    (api_get ⟨[], "", none⟩ (fun _ => .httpError 429 [("message", "wait")]) 2).fst
      = (.error (.httpStatus 429 [("message", "wait")]),
         (List.range' 1 2).map (fun i => 30 * i)) :=
  ((transport_429_retry_amended ⟨[], "", none⟩
      (fun _ => .httpError 429 [("message", "wait")]) 2
      (fun _ => [("message", "wait")]) 0 [] [] 0).1
    (fun _ _ => rfl)).1

theorem sameKey_refl (x : Cookie) : sameKey x x = true := by
  simp [sameKey]

theorem sameKey_comm (x y : Cookie) : sameKey x y = sameKey y x := by
  simp only [sameKey, Bool.beq_comm, Bool.and_assoc]

/-- `clear` written as a filter on the slot key. -/
theorem clearCookie_eq_filter (jar : List Cookie) (c : Cookie) :
    clearCookie jar c.domain c.path c.name
      = jar.filter (fun x => !(sameKey x c)) := rfl

/-- Clearing every cookie of a list of slots, in order, filters the jar
by "my slot key is not among the cleared ones". -/
theorem foldl_clear_eq_filter (L : List Cookie) (jar : List Cookie) :
    L.foldl (fun j c => clearCookie j c.domain c.path c.name) jar
      = jar.filter (fun x => !(L.any (fun c => sameKey x c))) := by
  induction L generalizing jar with
  | nil => simp
  | cons c L ih =>
      rw [List.foldl_cons, ih, clearCookie_eq_filter, List.filter_filter]
      refine List.filter_congr (fun x _ => ?_)
      simp [Bool.and_comm]

/-- Taking the `csrftoken` cookies commutes with any jar filter. -/
theorem csrfCookies_filter (jar : List Cookie) (p : Cookie → Bool) :
    csrfCookies (jar.filter p) = (csrfCookies jar).filter p := by
  simp only [csrfCookies, List.filter_filter]
  refine List.filter_congr (fun x _ => ?_)
  exact Bool.and_comm _ _

/-- `session.cookies.get("csrftoken", "")` reads the first `csrftoken`
cookie of the jar. -/
theorem jarGet_csrftoken (jar : List Cookie) :
    jarGet jar "csrftoken"
      = (match (csrfCookies jar).head? with
         | some c => c.cvalue
         | none => "") := rfl

/-- Whatever branch `_refresh_csrf` takes, the resulting jar is the
deduplicated one. -/
theorem refresh_csrf_jar (s : WebClient) :
    (refresh_csrf s).jar =
      (if (csrfCookies s.jar).length > 1 then
        (csrfCookies s.jar).dropLast.foldl
          (fun j c => clearCookie j c.domain c.path c.name) s.jar
      else s.jar) := by
  simp only [refresh_csrf]
  split <;> split <;> rfl

/-- After `_refresh_csrf`, on a jar whose `csrftoken` cookies occupy
pairwise-distinct slots and end with `c` (the most recently set one),
exactly `[c]` survives. -/
theorem csrfCookies_refresh (s : WebClient)
    (hU : (csrfCookies s.jar).Pairwise (fun a b => sameKey a b = false))
    (L : List Cookie) (c : Cookie) (hcs : csrfCookies s.jar = L ++ [c]) :
    csrfCookies (refresh_csrf s).jar = [c] := by
  rw [refresh_csrf_jar, hcs]
  cases L with
  | nil => simp [hcs]
  | cons l0 L' =>
      rw [if_pos (by simp)]
      rw [List.dropLast_concat, foldl_clear_eq_filter, csrfCookies_filter, hcs,
        List.filter_append]
      have hL : (l0 :: L').filter
          (fun x => !((l0 :: L').any (fun cc => sameKey x cc))) = [] := by
        rw [List.filter_eq_nil_iff]
        intro a ha
        simp only [Bool.not_eq_true', Bool.not_eq_false]
        exact List.any_eq_true.mpr ⟨a, ha, sameKey_refl a⟩
      have hc : ((l0 :: L').any (fun cc => sameKey c cc)) = false := by
        rw [List.any_eq_false]
        intro y hy
        rw [hcs] at hU
        have := (List.pairwise_append.mp hU).2.2 y hy c (by simp)
        simp [sameKey_comm c y, this]
      rw [hL]
      simp only [List.nil_append]
      simpa using hc

/-- C6: before every transport-layer call (`_api_get`, `_api_post`,
`_web_post`) the client state used for the request is the CSRF-refreshed
one; `_refresh_csrf` leaves at most one `csrftoken` cookie in the jar,
and when the jar held csrf cookies (on pairwise-distinct `requests` jar
slots, the jar invariant) it keeps exactly the most recently set one
and stores its (non-empty) value in `csrf_token` and the `X-CSRFToken`
header. -/
theorem csrf_refreshed_before_every_call (s : WebClient)
    (hU : (csrfCookies s.jar).Pairwise (fun a b => sameKey a b = false)) :
    (csrfCookies (refresh_csrf s).jar).length ≤ 1
    ∧ (∀ L c, csrfCookies s.jar = L ++ [c] → c.cvalue ≠ "" →
        (refresh_csrf s).headerCsrf = some c.cvalue
        ∧ (refresh_csrf s).csrf_token = c.cvalue
        ∧ csrfCookies (refresh_csrf s).jar = [c])
    ∧ (∀ resps retries,
        (api_get s resps retries).snd = refresh_csrf s
        ∧ (api_post s resps retries).snd = refresh_csrf s)
    ∧ (∀ resp, (web_post s resp).snd = refresh_csrf s) := by
  refine ⟨?_, ?_, fun resps retries => ⟨rfl, rfl⟩, fun resp => rfl⟩
  · rcases List.eq_nil_or_concat (csrfCookies s.jar) with hnil | ⟨L, c, hcs⟩
    · rw [refresh_csrf_jar, hnil]
      simp [hnil]
    · rw [List.concat_eq_append] at hcs
      rw [csrfCookies_refresh s hU L c hcs]
      simp
  · intro L c hcs hv
    have hjar := csrfCookies_refresh s hU L c hcs
    have hget : jarGet (refresh_csrf s).jar "csrftoken" = c.cvalue := by
      rw [jarGet_csrftoken, hjar]
      rfl
    refine ⟨?_, ?_, hjar⟩ <;>
      · rw [refresh_csrf_jar] at hget
        simp only [refresh_csrf]
        rw [hget, if_pos hv]

/-- Witness for C6: a jar holding two `csrftoken` cookies on different
domains keeps only the later-set one and exposes its value in the
header. -/
theorem csrf_refreshed_before_every_call_witness :
    (refresh_csrf ⟨[⟨"a.com", "/", "csrftoken", "old"⟩,
        ⟨"other", "/", "sid", "s"⟩,
        ⟨"b.com", "/", "csrftoken", "new"⟩], "", none⟩).headerCsrf = some "new"
    ∧ (refresh_csrf ⟨[⟨"a.com", "/", "csrftoken", "old"⟩,
        ⟨"other", "/", "sid", "s"⟩,
        ⟨"b.com", "/", "csrftoken", "new"⟩], "", none⟩).csrf_token = "new"
    ∧ csrfCookies (refresh_csrf ⟨[⟨"a.com", "/", "csrftoken", "old"⟩,
        ⟨"other", "/", "sid", "s"⟩,
        ⟨"b.com", "/", "csrftoken", "new"⟩], "", none⟩).jar
      = [⟨"b.com", "/", "csrftoken", "new"⟩] :=
  ((csrf_refreshed_before_every_call _ (by decide)).2.1
    [⟨"a.com", "/", "csrftoken", "old"⟩] ⟨"b.com", "/", "csrftoken", "new"⟩
    (by decide) (by decide))

end KlingWeb
